import Mathlib

/-!
Shallow embedding of the Vulkan rendering backend of purpl-rs
(src/engine/rendersystem/vulkan.rs and src/engine/rendersystem/mod.rs),
together with theorems settling the specification claims about it.

Machine integers are modelled as `Nat`/`Int` with explicit reductions
modulo `2 ^ 32` where the Rust code performs `as u32`/`as i32` casts or
u32 arithmetic (release-mode wrapping semantics).  Fallible Vulkan calls
are modelled as `Except`/`Option` values supplied as inputs, so that the
control flow of the Rust functions can be translated directly.
-/

namespace Purpl

/-- The number of frame slots, `const FRAME_COUNT: usize = 3` in vulkan.rs. -/
def FRAME_COUNT : Nat := 3

/-- Modulus of 32-bit unsigned arithmetic. -/
def U32 : Nat := 2 ^ 32

/-- Two's-complement wrapping of an integer into the i32 range,
modelling Rust release-mode `as i32` casts and wrapping i32 negation. -/
def wrapI32 (z : Int) : Int := (z + 2 ^ 31) % 2 ^ 32 - 2 ^ 31

/-- Vulkan image/surface formats used by the code (vk::Format); `other`
covers the remaining members of the open enum. -/
inductive Format where
  | undefined
  | b8g8r8a8Unorm
  | d32SfloatS8Uint
  | d24UnormS8Uint
  | other (code : Nat)
deriving DecidableEq

/-- Vulkan color spaces (vk::ColorSpaceKHR). -/
inductive ColorSpace where
  | srgbNonlinear
  | other (code : Nat)
deriving DecidableEq

/-- A surface format entry (vk::SurfaceFormatKHR): format plus color space. -/
structure SurfaceFormat where
  format : Format
  colorSpace : ColorSpace
deriving DecidableEq

/-- Vulkan present modes (vk::PresentModeKHR). -/
inductive PresentMode where
  | immediate
  | mailbox
  | fifo
  | fifoRelaxed
  | other (code : Nat)
deriving DecidableEq

/-- Vulkan physical device types (vk::PhysicalDeviceType). -/
inductive PhysicalDeviceType where
  | other
  | integratedGpu
  | discreteGpu
  | virtualGpu
  | cpu
deriving DecidableEq

/-- The fields of vk::QueueFamilyProperties that State::get_gpus reads:
the queue count and whether the GRAPHICS / COMPUTE bits are set in
queue_flags. -/
structure QueueFamilyProps where
  queueCount : Nat
  graphics : Bool
  compute : Bool
deriving DecidableEq

/-- The fields of vk::PhysicalDeviceProperties that the code reads:
device_type and limits.max_viewport_dimensions (two u32 values). -/
structure PhysicalDeviceProps where
  deviceType : PhysicalDeviceType
  maxViewportWidth : Nat
  maxViewportHeight : Nat
deriving DecidableEq

/-- Surface capabilities (vk::SurfaceCapabilitiesKHR); stored by
get_gpus but never inspected by the code under analysis. -/
structure SurfaceCapabilitiesKHR where
  minImageCount : Nat
  currentExtentWidth : Nat
  currentExtentHeight : Nat
deriving DecidableEq

deriving instance DecidableEq for Except

/-- A physical device as seen through the Vulkan queries performed by
State::get_gpus.  Each fallible query result is an input (`Except` with
a numeric error code), and `memoryHeap0Size` is
memory_properties.memory_heaps[0].size (a u64 byte count). -/
structure PhysicalDevice where
  id : Nat
  queueFamilyProps : List QueueFamilyProps
  extensionProps : Except Nat (List String)
  surfaceCapabilities : Except Nat SurfaceCapabilitiesKHR
  surfaceFormats : Except Nat (List SurfaceFormat)
  presentModes : Except Nat (List PresentMode)
  memoryHeap0Size : Nat
  props : PhysicalDeviceProps
deriving DecidableEq

/-- The GpuInfo struct of vulkan.rs (the retained candidate record). -/
structure GpuInfo where
  device : Nat
  memoryHeap0Size : Nat
  props : PhysicalDeviceProps
  surfaceCapabilities : SurfaceCapabilitiesKHR
  surfaceFormats : List SurfaceFormat
  presentModes : List PresentMode
  graphicsFamilyIndex : Nat
  computeFamilyIndex : Nat
  performanceScore : Nat
deriving DecidableEq

/-- State::get_required_device_exts returns the one-element extension
list containing the swapchain extension. -/
def requiredDeviceExts : List String := ["VK_KHR_swapchain"]

/-- Predicate used for the graphics queue family search in get_gpus:
queue_count >= 1 and queue_flags contains GRAPHICS. -/
def graphicsPred (p : QueueFamilyProps) : Bool :=
  decide (1 ≤ p.queueCount) && p.graphics

/-- Predicate used for the compute queue family search in get_gpus:
queue_count >= 1 and queue_flags contains COMPUTE. -/
def computePred (p : QueueFamilyProps) : Bool :=
  decide (1 ≤ p.queueCount) && p.compute

/-- Models `iter().enumerate().find(pred)` on the queue family list,
returning the index of the first family satisfying the predicate. -/
def findQueueFamilyIndex (pred : QueueFamilyProps → Bool)
    (qfs : List QueueFamilyProps) : Option Nat :=
  (qfs.enum.find? fun ip => pred ip.2).map fun ip => ip.1

/-- The performance score computed in State::get_gpus, with u32 release
semantics: `(heap0_size / 1000) as u32 + ((vw as u64 * vh as u64) / 1000) as u32`,
then `*= 10` for discrete/virtual, `*= 2` for integrated; every cast,
addition and multiplication wraps modulo 2^32. -/
def gpuScore (heap0 vw vh : Nat) (ty : PhysicalDeviceType) : Nat :=
  let score := ((heap0 / 1000) % U32 + (vw * vh / 1000) % U32) % U32
  if ty ∈ [PhysicalDeviceType.discreteGpu, PhysicalDeviceType.virtualGpu] then
    (score * 10) % U32
  else if ty = PhysicalDeviceType.integratedGpu then
    (score * 2) % U32
  else
    score

/-- Modelled from the spec: `score = memory_heap0_size_in_KB +
(max_viewport_width * max_viewport_height / 1000)`, multiplied by 10 for
discrete/virtual GPU types, by 2 for integrated, by 1 otherwise, in
exact (unbounded) arithmetic. -/
def scoreSpec (heap0 vw vh : Nat) (ty : PhysicalDeviceType) : Nat :=
  let base := heap0 / 1000 + vw * vh / 1000
  let mult : Nat :=
    if ty = PhysicalDeviceType.discreteGpu ∨ ty = PhysicalDeviceType.virtualGpu then 10
    else if ty = PhysicalDeviceType.integratedGpu then 2
    else 1
  base * mult

/-- The body of the device loop in State::get_gpus: the sequence of
filter steps, each `continue` modelled as `none`, and on success the
GpuInfo that is pushed. -/
def processDevice (d : PhysicalDevice) : Option GpuInfo :=
  if d.queueFamilyProps.isEmpty then none
  else
    match findQueueFamilyIndex graphicsPred d.queueFamilyProps with
    | none => none
    | some graphicsFamilyIdx =>
      match findQueueFamilyIndex computePred d.queueFamilyProps with
      | none => none
      | some computeFamilyIdx =>
        match d.extensionProps with
        | Except.error _ => none
        | Except.ok exts =>
          if requiredDeviceExts.length ≤ exts.length then
            match d.surfaceCapabilities with
            | Except.error _ => none
            | Except.ok caps =>
              match d.surfaceFormats with
              | Except.error _ => none
              | Except.ok fmts =>
                if fmts.isEmpty then none
                else
                  match d.presentModes with
                  | Except.error _ => none
                  | Except.ok modes =>
                    if modes.isEmpty then none
                    else
                      some { device := d.id
                           , memoryHeap0Size := d.memoryHeap0Size
                           , props := d.props
                           , surfaceCapabilities := caps
                           , surfaceFormats := fmts
                           , presentModes := modes
                           , graphicsFamilyIndex := graphicsFamilyIdx
                           , computeFamilyIndex := computeFamilyIdx
                           , performanceScore :=
                               gpuScore d.memoryHeap0Size d.props.maxViewportWidth
                                 d.props.maxViewportHeight d.props.deviceType }
          else none

/-- The filtered (unsorted) candidate list accumulated by the loop of
State::get_gpus. -/
def getGpusFiltered (devices : List PhysicalDevice) : List GpuInfo :=
  devices.filterMap processDevice

/-- The sort key of `gpus.sort_by_key(|gpu| -(gpu.performance_score as i32))`:
the u32 score cast to i32 (two's complement) and negated, both with
wrapping semantics. -/
def sortKey (g : GpuInfo) : Int := wrapI32 (-(wrapI32 g.performanceScore))

/-- Ascending comparison on the sort key; Rust `sort_by_key` sorts
stably in ascending key order. -/
def sortRel (a b : GpuInfo) : Prop := sortKey a ≤ sortKey b

instance : DecidableRel sortRel :=
  fun a b => inferInstanceAs (Decidable (sortKey a ≤ sortKey b))

instance : IsTotal GpuInfo sortRel :=
  ⟨fun a b => Int.le_total (sortKey a) (sortKey b)⟩

instance : IsTrans GpuInfo sortRel :=
  ⟨fun _ _ _ hab hbc => le_trans hab hbc⟩

/-- State::get_gpus: filter the devices, panic (`none`) when no usable
device remains, and otherwise return the list sorted stably in
ascending order of `sortKey` (modelling Rust's stable `sort_by_key`
with a stable insertion sort). -/
def get_gpus (devices : List PhysicalDevice) : Option (List GpuInfo) :=
  if (getGpusFiltered devices).length < 1 then none
  else some (List.insertionSort sortRel (getGpusFiltered devices))

/-- The specified output order: performance scores are non-increasing
from head to tail. -/
def scoreNonIncreasing (l : List GpuInfo) : Prop :=
  l.Pairwise fun a b => b.performanceScore ≤ a.performanceScore

instance (l : List GpuInfo) : Decidable (scoreNonIncreasing l) := by
  unfold scoreNonIncreasing
  infer_instance

/-- The preferred surface format pair B8G8R8A8_UNORM + SRGB_NONLINEAR;
it is also the fixed pair substituted when the device reports only the
undefined sentinel format. -/
def preferredSurfaceFormat : SurfaceFormat :=
  { format := Format.b8g8r8a8Unorm, colorSpace := ColorSpace.srgbNonlinear }

/-- Test for the preferred pair, as in the loop of
State::choose_surface_format. -/
def isPreferredFormat (f : SurfaceFormat) : Bool :=
  decide (f.format = Format.b8g8r8a8Unorm ∧ f.colorSpace = ColorSpace.srgbNonlinear)

/-- The first branch condition of State::choose_surface_format:
exactly one reported format and its format member is UNDEFINED. -/
def onlyUndefinedSentinel (gpu : GpuInfo) : Prop :=
  gpu.surfaceFormats.length = 1 ∧
    gpu.surfaceFormats[0]?.map SurfaceFormat.format = some Format.undefined

instance (gpu : GpuInfo) : Decidable (onlyUndefinedSentinel gpu) :=
  inferInstanceAs (Decidable (_ ∧ _))

/-- State::choose_surface_format.  The final `gpu.surface_formats[0]`
indexes the list and panics when it is empty; the panic is modelled by
`none` (via `[0]?`). -/
def choose_surface_format (gpu : GpuInfo) : Option SurfaceFormat :=
  if onlyUndefinedSentinel gpu then
    some preferredSurfaceFormat
  else
    match gpu.surfaceFormats.find? isPreferredFormat with
    | some f => some f
    | none => gpu.surfaceFormats[0]?

/-- The part of State's state that State::set_gpu reads and writes: the
active index `gpu` and the candidate list `gpus`. -/
structure SelectionState where
  gpu : Nat
  gpus : List GpuInfo
deriving DecidableEq

/-- State::set_gpu: remember the old index, change the active index
only when the argument is in range, and return the old index.  The
out-of-range case performs no other action (no error is raised). -/
def set_gpu (s : SelectionState) (gpuIdx : Nat) : Nat × SelectionState :=
  if gpuIdx < s.gpus.length then
    (s.gpu, { s with gpu := gpuIdx })
  else
    (s.gpu, s)

/-- The Buffer struct (the `size` field is the only one its `copy`
method reads besides opaque handles). -/
structure Buffer where
  size : Nat
deriving DecidableEq

/-- Observable effects of one Buffer::copy call on the command-buffer
and queue state. -/
structure BufferCopyTrace where
  allocatedFromTransferPool : Nat
  usedOneTimeSubmit : Bool
  copySize : Nat
  submittedBufferCount : Nat
  waitedQueueIdle : Bool
  freedFromTransferPool : Nat
deriving DecidableEq

/-- Buffer::copy: it allocates command buffers with
`command_buffer_count: FRAME_COUNT as u32` from the transfer pool,
takes element [0], records a ONE_TIME_SUBMIT copy of `self.size` bytes,
submits that single buffer, waits for queue idle, and frees exactly
that one buffer. -/
def Buffer.copy (self : Buffer) : BufferCopyTrace :=
  { allocatedFromTransferPool := FRAME_COUNT
  , usedOneTimeSubmit := true
  , copySize := self.size
  , submittedBufferCount := 1
  , waitedQueueIdle := true
  , freedFromTransferPool := 1 }

/-- The Image struct of vulkan.rs. -/
structure Image where
  handle : Nat
  allocation : Nat
  view : Nat
  format : Format
deriving DecidableEq

/-- Resource operations performed against the allocator/device,
recorded as a trace. -/
inductive ResourceAction where
  | createImage (handle allocation : Nat)
  | destroyImage (handle allocation : Nat)
  | createImageView (view : Nat)
deriving DecidableEq

/-- Image::new: fix the format on the create info, attempt the combined
image+allocation creation (`createImageResult`), then attempt the view
creation with view_info.image set to the new handle and
view_info.format set to the format (`createViewResult`).  Either error
is returned as-is; no destroy call appears on any path, so a view
failure leaves the created image allocated. -/
def Image.new (format : Format)
    (createImageResult : Except Nat (Nat × Nat))
    (createViewResult : Nat → Format → Except Nat Nat) :
    Except Nat Image × List ResourceAction :=
  match createImageResult with
  | Except.error e => (Except.error e, [])
  | Except.ok (handle, allocation) =>
    match createViewResult handle format with
    | Except.error e =>
      (Except.error e, [ResourceAction.createImage handle allocation])
    | Except.ok view =>
      (Except.ok { handle := handle, allocation := allocation
                 , view := view, format := format },
       [ResourceAction.createImage handle allocation,
        ResourceAction.createImageView view])

/-- A shared shader handle (ThingHolder of Shader) in the registries,
modelled by an opaque identifier. -/
structure Material where
  name : String
  shader : Nat
deriving DecidableEq

/-- The registries of rendersystem::State that Material::new touches:
shaders (name to shader handle) and materials, modelled as association
lists standing for the HashMaps. -/
structure RegistryState where
  shaders : List (String × Nat)
  materials : List (String × Material)
deriving DecidableEq

/-- HashMap::insert modelled on association lists: the new binding
replaces any existing binding of the same key. -/
def hashMapInsert {α : Type} (k : String) (v : α)
    (m : List (String × α)) : List (String × α) :=
  (k, v) :: m.filter fun kv => decide (kv.1 ≠ k)

/-- Material::new: look the shader name up in the shader registry;
return Err(()) immediately when it is absent (before anything is
inserted), and otherwise insert the new material under its name. -/
def Material.new (s : RegistryState) (name shaderName : String) :
    Except Unit Material × RegistryState :=
  match s.shaders.lookup shaderName with
  | none => (Except.error (), s)
  | some h =>
    let m : Material := { name := name, shader := h }
    (Except.ok m, { s with materials := hashMapInsert name m s.materials })

/-- A 2D extent (vk::Extent2D). -/
structure Extent2D where
  width : Nat
  height : Nat
deriving DecidableEq

/-- The size-related state that State::recreate_swapchain reads and
writes: the stored `swapchain_extent` field, the extent the current
swapchain images were created with, and the depth image extent. -/
structure SwapchainSizeState where
  swapchainExtentField : Extent2D
  swapchainImageExtent : Extent2D
  depthImageExtent : Extent2D
deriving DecidableEq

/-- State::recreate_swapchain, restricted to the size data flow: it
destroys the old depth image and swapchain (views first), then calls
create_swapchain with `&self.swapchain_extent` (the stored field, which
the function never updates) and create_render_targets, which sizes the
new depth image to `platform::video::get_size()` (the externally
reported window size at the time of the call, `videoSize`). -/
def recreate_swapchain (s : SwapchainSizeState) (videoSize : Extent2D) :
    SwapchainSizeState :=
  { swapchainExtentField := s.swapchainExtentField
  , swapchainImageExtent := s.swapchainExtentField
  , depthImageExtent := videoSize }

/-- Frame-pacing state of the backend: the frame slot index and a log
of the fence indices waited on so far. -/
structure FrameSyncState where
  frameIndex : Nat
  fenceWaitLog : List Nat
deriving DecidableEq

/-- State::begin_cmds as written in the source: `pub fn begin_cmds(&mut self) {}`,
an empty body that reads and writes nothing. -/
def begin_cmds (s : FrameSyncState) : FrameSyncState := s

/-- Concrete device: one combined graphics+compute family, the
swapchain extension, one surface format, FIFO present mode, a 5 MB
heap, zero viewport limits, type OTHER; its score is 5. -/
def devSmall : PhysicalDevice :=
  { id := 1
  , queueFamilyProps := [{ queueCount := 1, graphics := true, compute := true }]
  , extensionProps := Except.ok ["VK_KHR_swapchain"]
  , surfaceCapabilities := Except.ok { minImageCount := 3, currentExtentWidth := 0, currentExtentHeight := 0 }
  , surfaceFormats := Except.ok [{ format := Format.b8g8r8a8Unorm, colorSpace := ColorSpace.srgbNonlinear }]
  , presentModes := Except.ok [PresentMode.fifo]
  , memoryHeap0Size := 5000
  , props := { deviceType := PhysicalDeviceType.other, maxViewportWidth := 0, maxViewportHeight := 0 } }

/-- Concrete device identical to `devSmall` except for a 2147483649000
byte heap; its u32 score is 2147483649 = 2^31 + 1, which exceeds the
i32 range. -/
def devHuge : PhysicalDevice :=
  { devSmall with id := 2, memoryHeap0Size := 2147483649000 }

/-- Concrete device identical to `devSmall` except that its only
reported extension is not the swapchain extension. -/
def devOddExt : PhysicalDevice :=
  { devSmall with id := 3, extensionProps := Except.ok ["VK_EXT_robustness2"] }

/-- The GpuInfo that the get_gpus loop body yields on `devSmall`. -/
def gpuSmall : GpuInfo :=
  { device := 1
  , memoryHeap0Size := 5000
  , props := { deviceType := PhysicalDeviceType.other
             , maxViewportWidth := 0, maxViewportHeight := 0 }
  , surfaceCapabilities := { minImageCount := 3
                           , currentExtentWidth := 0, currentExtentHeight := 0 }
  , surfaceFormats := [{ format := Format.b8g8r8a8Unorm
                       , colorSpace := ColorSpace.srgbNonlinear }]
  , presentModes := [PresentMode.fifo]
  , graphicsFamilyIndex := 0
  , computeFamilyIndex := 0
  , performanceScore := 5 }

/-! ## Theorems -/

/-- C1: State::begin_cmds is an empty function: it changes no state and
performs no fence wait, so recording into slot k mod 3 can begin even
though that slot's previous submission has not signaled its fence.
This refutes the claimed frame-slot fence discipline. -/
theorem begin_cmds_performs_no_fence_wait (s : FrameSyncState) :
    begin_cmds s = s ∧ (begin_cmds s).fenceWaitLog = s.fenceWaitLog :=
  ⟨rfl, rfl⟩

/-- C5: evaluating State::recreate_swapchain with stored
swapchain_extent 1280x720 while the window reports 1920x1080 creates
the new swapchain with the stale 1280x720 extent, while the new depth
image is sized to the reported 1920x1080 — the two disagree, refuting
the claim that both equal the reported size. -/
theorem recreate_swapchain_uses_stale_extent :
    (recreate_swapchain
      { swapchainExtentField := { width := 1280, height := 720 }
      , swapchainImageExtent := { width := 1280, height := 720 }
      , depthImageExtent := { width := 1280, height := 720 } }
      { width := 1920, height := 1080 }).swapchainImageExtent =
        { width := 1280, height := 720 } ∧
    (recreate_swapchain
      { swapchainExtentField := { width := 1280, height := 720 }
      , swapchainImageExtent := { width := 1280, height := 720 }
      , depthImageExtent := { width := 1280, height := 720 } }
      { width := 1920, height := 1080 }).depthImageExtent =
        { width := 1920, height := 1080 } ∧
    ({ width := 1280, height := 720 } : Extent2D) ≠ { width := 1920, height := 1080 } := by
  decide

/-- C6: a Buffer::copy call (here of a 64-byte buffer) allocates
FRAME_COUNT = 3 command buffers from the transfer pool but frees only
the one it used, leaving 2 outstanding; this refutes the claim that
exactly one is allocated and none are left outstanding.  The remaining
behavior (one-time-submit recording of the whole buffer, one submitted
buffer, queue-idle wait) matches the claim. -/
theorem buffer_copy_allocation_counts :
    (Buffer.copy { size := 64 }).allocatedFromTransferPool = 3 ∧
    (Buffer.copy { size := 64 }).freedFromTransferPool = 1 ∧
    (Buffer.copy { size := 64 }).allocatedFromTransferPool -
      (Buffer.copy { size := 64 }).freedFromTransferPool = 2 ∧
    (Buffer.copy { size := 64 }).copySize = 64 ∧
    (Buffer.copy { size := 64 }).usedOneTimeSubmit = true ∧
    (Buffer.copy { size := 64 }).submittedBufferCount = 1 ∧
    (Buffer.copy { size := 64 }).waitedQueueIdle = true := by
  decide

/-- C7: when the requested shader name is absent from the shader
registry, Material::new returns the not-found failure and leaves the
whole registry state — in particular the materials map — unchanged. -/
theorem material_new_missing_shader (s : RegistryState) (name shaderName : String)
    (h : s.shaders.lookup shaderName = none) :
    Material.new s name shaderName = (Except.error (), s) := by
  unfold Material.new
  rw [h]

/-- C7 witness: a registry holding only shader "basic" rejects a
material that names shader "ghost" and is left unchanged. -/
theorem material_new_missing_shader_witness :
    Material.new { shaders := [("basic", 7)], materials := [] } "mat" "ghost" =
      (Except.error (), { shaders := [("basic", 7)], materials := [] }) :=
  material_new_missing_shader
    { shaders := [("basic", 7)], materials := [] } "mat" "ghost" (by decide)

/-- C8: State::set_gpu always returns the previously active index and
never touches the candidate list; an in-range argument becomes the new
active index, and an out-of-range argument leaves the state entirely
unchanged (no error is raised — the return type has no error case). -/
theorem set_gpu_spec (s : SelectionState) (i : Nat) :
    (set_gpu s i).1 = s.gpu ∧
    ((set_gpu s i).2).gpus = s.gpus ∧
    (i < s.gpus.length → ((set_gpu s i).2).gpu = i) ∧
    (¬ i < s.gpus.length → (set_gpu s i).2 = s) := by
  unfold set_gpu
  by_cases hc : i < s.gpus.length
  · rw [if_pos hc]
    exact ⟨rfl, rfl, fun _ => rfl, fun hc2 => absurd hc hc2⟩
  · rw [if_neg hc]
    exact ⟨rfl, rfl, fun hc2 => absurd hc2 hc, fun _ => rfl⟩

/-- C8 witness: with an empty candidate list, set_gpu 5 is out of
range, returns the previous index 0 and changes nothing. -/
theorem set_gpu_spec_witness :
    (set_gpu { gpu := 0, gpus := [] } 5).1 = 0 ∧
    (set_gpu { gpu := 0, gpus := [] } 5).2 = { gpu := 0, gpus := [] } :=
  ⟨(set_gpu_spec { gpu := 0, gpus := [] } 5).1,
   (set_gpu_spec { gpu := 0, gpus := [] } 5).2.2.2 (by decide)⟩

/-- C9: when the combined image+allocation creation succeeds and the
subsequent view creation fails, Image::new returns the view-creation
error, and its action trace contains the image creation but no
destroy — the image and its allocation are leaked. -/
theorem image_new_view_fail_leaks (format : Format) (handle allocation e : Nat)
    (viewFn : Nat → Format → Except Nat Nat)
    (hv : viewFn handle format = Except.error e) :
    Image.new format (Except.ok (handle, allocation)) viewFn =
      (Except.error e, [ResourceAction.createImage handle allocation]) ∧
    ∀ h2 a2, ResourceAction.destroyImage h2 a2 ∉
      (Image.new format (Except.ok (handle, allocation)) viewFn).2 := by
  have hred : Image.new format (Except.ok (handle, allocation)) viewFn =
      (Except.error e, [ResourceAction.createImage handle allocation]) := by
    simp only [Image.new, hv]
  refine ⟨hred, ?_⟩
  intro h2 a2 hm
  rw [hred] at hm
  simp only [List.mem_singleton] at hm
  exact ResourceAction.noConfusion hm

/-- C9 witness: concrete image creation success (handle 10, allocation
20) followed by view failure with error code 1. -/
theorem image_new_view_fail_leaks_witness :
    Image.new Format.d32SfloatS8Uint (Except.ok (10, 20))
        (fun _ _ => Except.error 1) =
      (Except.error 1, [ResourceAction.createImage 10 20]) :=
  (image_new_view_fail_leaks Format.d32SfloatS8Uint 10 20 1
    (fun _ _ => Except.error 1) rfl).1

/-- An integer already in the i32 range is fixed by wrapping. -/
theorem wrapI32_eq_self (z : Int) (h0 : -(2 ^ 31) ≤ z) (h1 : z < 2 ^ 31) :
    wrapI32 z = z := by
  unfold wrapI32
  have h2 : (z + 2 ^ 31) % 2 ^ 32 = z + 2 ^ 31 :=
    Int.emod_eq_of_lt (by omega) (by omega)
  omega

/-- For scores inside the i32 range the sort key is exactly the negated
score. -/
theorem sortKey_eq_neg (g : GpuInfo) (h : g.performanceScore < 2 ^ 31) :
    sortKey g = -(g.performanceScore : Int) := by
  unfold sortKey
  rw [wrapI32_eq_self (g.performanceScore : Int) (by omega) (by omega),
      wrapI32_eq_self (-(g.performanceScore : Int)) (by omega) (by omega)]

/-- A found queue family index points at a family satisfying the search
predicate. -/
theorem findQueueFamilyIndex_spec (pred : QueueFamilyProps → Bool)
    (qfs : List QueueFamilyProps) (i : Nat)
    (h : findQueueFamilyIndex pred qfs = some i) :
    ∃ p, qfs[i]? = some p ∧ pred p = true := by
  unfold findQueueFamilyIndex at h
  cases hf : qfs.enum.find? (fun ip => pred ip.2) with
  | none => rw [hf] at h; exact Option.noConfusion h
  | some ip =>
    rw [hf] at h
    obtain ⟨j, p⟩ := ip
    simp only [Option.map_some'] at h
    injection h with h
    have hmem : (j, p) ∈ qfs.enum := List.mem_of_find?_eq_some hf
    have hpred : pred p = true := by simpa using List.find?_some hf
    have hget : qfs[j]? = some p := List.mk_mem_enum_iff_getElem?.mp hmem
    subst h
    exact ⟨p, hget, hpred⟩

/-- Inversion of the get_gpus loop body: a retained GpuInfo passed every
filter step, and its recorded fields come from the device queries. -/
theorem processDevice_some {d : PhysicalDevice} {g : GpuInfo}
    (hpd : processDevice d = some g) :
    (∃ p, d.queueFamilyProps[g.graphicsFamilyIndex]? = some p ∧ graphicsPred p = true) ∧
    (∃ p, d.queueFamilyProps[g.computeFamilyIndex]? = some p ∧ computePred p = true) ∧
    (∃ exts, d.extensionProps = Except.ok exts ∧ requiredDeviceExts.length ≤ exts.length) ∧
    d.surfaceFormats = Except.ok g.surfaceFormats ∧ g.surfaceFormats ≠ [] ∧
    d.presentModes = Except.ok g.presentModes ∧ g.presentModes ≠ [] := by
  unfold processDevice at hpd
  cases hq : d.queueFamilyProps.isEmpty with
  | true => simp [hq] at hpd
  | false =>
  simp only [hq, Bool.false_eq_true, if_false] at hpd
  cases hgf : findQueueFamilyIndex graphicsPred d.queueFamilyProps with
  | none => simp [hgf] at hpd
  | some gi =>
  simp only [hgf] at hpd
  cases hcf : findQueueFamilyIndex computePred d.queueFamilyProps with
  | none => simp [hcf] at hpd
  | some ci =>
  simp only [hcf] at hpd
  cases hext : d.extensionProps with
  | error e => simp [hext] at hpd
  | ok exts =>
  simp only [hext] at hpd
  by_cases hlen : requiredDeviceExts.length ≤ exts.length
  case neg => rw [if_neg hlen] at hpd; exact Option.noConfusion hpd
  rw [if_pos hlen] at hpd
  cases hcaps : d.surfaceCapabilities with
  | error e => simp [hcaps] at hpd
  | ok caps =>
  simp only [hcaps] at hpd
  cases hsf : d.surfaceFormats with
  | error e => simp [hsf] at hpd
  | ok fmts =>
  simp only [hsf] at hpd
  cases hfe : fmts.isEmpty with
  | true => simp [hfe] at hpd
  | false =>
  simp only [hfe, Bool.false_eq_true, if_false] at hpd
  cases hpm : d.presentModes with
  | error e => simp [hpm] at hpd
  | ok modes =>
  simp only [hpm] at hpd
  cases hme : modes.isEmpty with
  | true => simp [hme] at hpd
  | false =>
  simp only [hme, Bool.false_eq_true, if_false] at hpd
  injection hpd with hpd
  subst hpd
  refine ⟨?_, ?_, ⟨exts, rfl, hlen⟩, rfl, ?_, rfl, ?_⟩
  · obtain ⟨p, hp1, hp2⟩ := findQueueFamilyIndex_spec _ _ _ hgf
    exact ⟨p, hp1, hp2⟩
  · obtain ⟨p, hp1, hp2⟩ := findQueueFamilyIndex_spec _ _ _ hcf
    exact ⟨p, hp1, hp2⟩
  · intro hnil
    have hnil2 : fmts = [] := hnil
    rw [hnil2] at hfe
    exact Bool.noConfusion hfe
  · intro hnil
    have hnil2 : modes = [] := hnil
    rw [hnil2] at hme
    exact Bool.noConfusion hme

/-- C2 counterexample: on the two concrete devices `devHuge` (score
2147483649 = 2^31 + 1) and `devSmall` (score 5), get_gpus returns the
scores in strictly increasing order [5, 2147483649], because the sort
key `-(score as i32)` wraps for scores outside the i32 range.  This
refutes the claim that the returned list is always non-increasing by
performance_score. -/
theorem get_gpus_order_counterexample :
    ((get_gpus [devHuge, devSmall]).getD []).map GpuInfo.performanceScore =
      [5, 2147483649] ∧
    ¬ scoreNonIncreasing ((get_gpus [devHuge, devSmall]).getD []) := by
  constructor
  · decide
  · decide

/-- C2 (amended): whenever every retained candidate's score is below
2^31 (so that the i32 cast in the sort key is lossless), the list
returned by get_gpus is sorted in non-increasing order of
performance_score. -/
theorem get_gpus_sorted_desc (devices : List PhysicalDevice) (l : List GpuInfo)
    (hsmall : ∀ g ∈ getGpusFiltered devices, g.performanceScore < 2 ^ 31)
    (hl : get_gpus devices = some l) :
    scoreNonIncreasing l := by
  unfold get_gpus at hl
  by_cases hc : (getGpusFiltered devices).length < 1
  · rw [if_pos hc] at hl; exact Option.noConfusion hl
  · rw [if_neg hc] at hl
    injection hl with hl
    subst hl
    have hs : List.Pairwise sortRel
        (List.insertionSort sortRel (getGpusFiltered devices)) :=
      List.sorted_insertionSort sortRel (getGpusFiltered devices)
    have hperm := List.perm_insertionSort sortRel (getGpusFiltered devices)
    unfold scoreNonIncreasing
    refine List.Pairwise.imp_of_mem ?_ hs
    intro a b ha hb hr
    have ha2 := hperm.mem_iff.mp ha
    have hb2 := hperm.mem_iff.mp hb
    have ka := sortKey_eq_neg a (hsmall a ha2)
    have kb := sortKey_eq_neg b (hsmall b hb2)
    have hr2 : sortKey a ≤ sortKey b := hr
    rw [ka, kb] at hr2
    omega

/-- C2 witness: on the single small device the hypothesis holds and the
returned singleton list is (trivially) non-increasing. -/
theorem get_gpus_sorted_desc_witness : scoreNonIncreasing [gpuSmall] :=
  get_gpus_sorted_desc [devSmall] [gpuSmall] (by decide) (by decide)

/-- C3 counterexample: a discrete GPU with a 500 GB heap and zero
viewport limits gets code score (5*10^8 * 10) mod 2^32 = 705032704,
while the spec formula gives 5*10^9; the u32 wrap makes them differ, so
the claimed equality with the exact formula fails. -/
theorem gpu_score_overflow_counterexample :
    gpuScore 500000000000 0 0 PhysicalDeviceType.discreteGpu = 705032704 ∧
    scoreSpec 500000000000 0 0 PhysicalDeviceType.discreteGpu = 5000000000 ∧
    gpuScore 500000000000 0 0 PhysicalDeviceType.discreteGpu ≠
      scoreSpec 500000000000 0 0 PhysicalDeviceType.discreteGpu := by
  decide

/-- C3 (amended): when the exact spec formula value fits in u32 (no
intermediate overflow is then possible either), the code's score equals
the spec formula exactly; the score is a pure function of the four
inputs by construction. -/
theorem gpu_score_eq_spec_of_no_overflow (heap0 vw vh : Nat)
    (ty : PhysicalDeviceType) (h : scoreSpec heap0 vw vh ty < 2 ^ 32) :
    gpuScore heap0 vw vh ty = scoreSpec heap0 vw vh ty := by
  have key : ∀ a b m : Nat, 1 ≤ m → (a + b) * m < 2 ^ 32 →
      ((a % U32 + b % U32) % U32 * m) % U32 = (a + b) * m := by
    intro a b m hm hlt
    have h1 : a + b ≤ (a + b) * m := Nat.le_mul_of_pos_right _ hm
    unfold U32
    have ha : a % 2 ^ 32 = a := Nat.mod_eq_of_lt (by omega)
    have hb : b % 2 ^ 32 = b := Nat.mod_eq_of_lt (by omega)
    rw [ha, hb]
    have hab : (a + b) % 2 ^ 32 = a + b := Nat.mod_eq_of_lt (by omega)
    rw [hab]
    exact Nat.mod_eq_of_lt hlt
  have key1 : ∀ a b : Nat, a + b < 2 ^ 32 →
      (a % U32 + b % U32) % U32 = a + b := by
    intro a b hlt
    unfold U32
    have ha : a % 2 ^ 32 = a := Nat.mod_eq_of_lt (by omega)
    have hb : b % 2 ^ 32 = b := Nat.mod_eq_of_lt (by omega)
    rw [ha, hb]
    exact Nat.mod_eq_of_lt hlt
  cases ty with
  | discreteGpu => exact key (heap0 / 1000) (vw * vh / 1000) 10 (by omega) h
  | virtualGpu => exact key (heap0 / 1000) (vw * vh / 1000) 10 (by omega) h
  | integratedGpu => exact key (heap0 / 1000) (vw * vh / 1000) 2 (by omega) h
  | other =>
    have h2 : scoreSpec heap0 vw vh PhysicalDeviceType.other =
        heap0 / 1000 + vw * vh / 1000 := Nat.mul_one _
    rw [h2] at h ⊢
    exact key1 (heap0 / 1000) (vw * vh / 1000) h
  | cpu =>
    have h2 : scoreSpec heap0 vw vh PhysicalDeviceType.cpu =
        heap0 / 1000 + vw * vh / 1000 := Nat.mul_one _
    rw [h2] at h ⊢
    exact key1 (heap0 / 1000) (vw * vh / 1000) h

/-- C3 witness: a small discrete GPU where nothing overflows; code and
spec formula agree. -/
theorem gpu_score_eq_spec_witness :
    gpuScore 5000 0 0 PhysicalDeviceType.discreteGpu =
      scoreSpec 5000 0 0 PhysicalDeviceType.discreteGpu :=
  gpu_score_eq_spec_of_no_overflow 5000 0 0 PhysicalDeviceType.discreteGpu
    (by decide)

/-- C4 counterexample: `devOddExt` reports the single extension
VK_EXT_robustness2 — not the swapchain extension — yet it is retained
by get_gpus, because the code only compares the number of reported
extensions against the number required.  This refutes the claim that
every retained candidate exposes the required extension set (swapchain
at minimum). -/
theorem get_gpus_extension_check_counterexample :
    (getGpusFiltered [devOddExt]).length = 1 ∧
    devOddExt.extensionProps = Except.ok ["VK_EXT_robustness2"] ∧
    "VK_KHR_swapchain" ∉ (["VK_EXT_robustness2"] : List String) := by
  decide

/-- C4 (amended): every candidate retained by get_gpus has a
graphics-capable queue family at its recorded graphics index, a
compute-capable family at its compute index (possibly the same), a
non-empty surface format list, a non-empty present mode list, and came
from a device whose reported extension count is at least the required
count (a count comparison only — the swapchain extension itself is not
checked for by name). -/
theorem get_gpus_retained_invariants (devices : List PhysicalDevice) (g : GpuInfo)
    (hg : g ∈ getGpusFiltered devices) :
    g.surfaceFormats ≠ [] ∧ g.presentModes ≠ [] ∧
    ∃ d ∈ devices, processDevice d = some g ∧
      (∃ p, d.queueFamilyProps[g.graphicsFamilyIndex]? = some p ∧
        1 ≤ p.queueCount ∧ p.graphics = true) ∧
      (∃ p, d.queueFamilyProps[g.computeFamilyIndex]? = some p ∧
        1 ≤ p.queueCount ∧ p.compute = true) ∧
      (∃ exts, d.extensionProps = Except.ok exts ∧
        requiredDeviceExts.length ≤ exts.length) := by
  obtain ⟨d, hd, hpd⟩ := List.mem_filterMap.mp hg
  obtain ⟨⟨pg, hpg, hpg2⟩, ⟨pc, hpc, hpc2⟩, hexts, _, hsfne, _, hpmne⟩ :=
    processDevice_some hpd
  have hg2 : 1 ≤ pg.queueCount ∧ pg.graphics = true := by
    unfold graphicsPred at hpg2
    simpa [Bool.and_eq_true, decide_eq_true_eq] using hpg2
  have hc2 : 1 ≤ pc.queueCount ∧ pc.compute = true := by
    unfold computePred at hpc2
    simpa [Bool.and_eq_true, decide_eq_true_eq] using hpc2
  exact ⟨hsfne, hpmne,
    d, hd, hpd, ⟨pg, hpg, hg2.1, hg2.2⟩, ⟨pc, hpc, hc2.1, hc2.2⟩, hexts⟩

/-- C4 witness: the invariants instantiated on the single retained
candidate of the one-device list [devSmall]. -/
theorem get_gpus_retained_invariants_witness :
    gpuSmall.surfaceFormats ≠ [] ∧ gpuSmall.presentModes ≠ [] ∧
    ∃ d ∈ [devSmall], processDevice d = some gpuSmall ∧
      (∃ p, d.queueFamilyProps[gpuSmall.graphicsFamilyIndex]? = some p ∧
        1 ≤ p.queueCount ∧ p.graphics = true) ∧
      (∃ p, d.queueFamilyProps[gpuSmall.computeFamilyIndex]? = some p ∧
        1 ≤ p.queueCount ∧ p.compute = true) ∧
      (∃ exts, d.extensionProps = Except.ok exts ∧
        requiredDeviceExts.length ≤ exts.length) :=
  get_gpus_retained_invariants [devSmall] gpuSmall (by decide)

/-- A surface format satisfies the preferred-pair test exactly when it
is the preferred pair. -/
theorem isPreferredFormat_eq_true_iff (f : SurfaceFormat) :
    isPreferredFormat f = true ↔ f = preferredSurfaceFormat := by
  cases f with
  | mk fo cs =>
    unfold isPreferredFormat preferredSurfaceFormat
    simp [SurfaceFormat.mk.injEq]

/-- C10: on any GpuInfo with a non-empty surface format list,
choose_surface_format returns a format (never the panic value `none`);
it returns the fixed default pair when the device reports only the
undefined sentinel, the preferred B8G8R8A8_UNORM + SRGB_NONLINEAR pair
when that pair is listed, and otherwise the first listed format. -/
theorem choose_surface_format_spec (gpu : GpuInfo)
    (hne : gpu.surfaceFormats ≠ []) :
    (∃ f, choose_surface_format gpu = some f) ∧
    (onlyUndefinedSentinel gpu →
      choose_surface_format gpu = some preferredSurfaceFormat) ∧
    (¬ onlyUndefinedSentinel gpu → preferredSurfaceFormat ∈ gpu.surfaceFormats →
      choose_surface_format gpu = some preferredSurfaceFormat) ∧
    (¬ onlyUndefinedSentinel gpu → preferredSurfaceFormat ∉ gpu.surfaceFormats →
      choose_surface_format gpu = gpu.surfaceFormats[0]?) := by
  by_cases hu : onlyUndefinedSentinel gpu
  · unfold choose_surface_format
    rw [if_pos hu]
    exact ⟨⟨preferredSurfaceFormat, rfl⟩, fun _ => rfl,
      fun hc => absurd hu hc, fun hc => absurd hu hc⟩
  · unfold choose_surface_format
    rw [if_neg hu]
    cases hf : gpu.surfaceFormats.find? isPreferredFormat with
    | some f =>
      have hfp : f = preferredSurfaceFormat :=
        (isPreferredFormat_eq_true_iff f).mp (List.find?_some hf)
      subst hfp
      exact ⟨⟨preferredSurfaceFormat, rfl⟩, fun hc => absurd hc hu,
        fun _ _ => rfl,
        fun _ hnm => absurd (List.mem_of_find?_eq_some hf) hnm⟩
    | none =>
      have hnm : preferredSurfaceFormat ∉ gpu.surfaceFormats := by
        intro hm
        exact List.find?_eq_none.mp hf _ hm
          ((isPreferredFormat_eq_true_iff _).mpr rfl)
      have hhead : ∃ x, gpu.surfaceFormats[0]? = some x := by
        cases hl : gpu.surfaceFormats with
        | nil => exact absurd hl hne
        | cons a as => exact ⟨a, List.getElem?_cons_zero⟩
      obtain ⟨x, hx⟩ := hhead
      exact ⟨⟨x, hx⟩, fun hc => absurd hc hu,
        fun _ hm => absurd hm hnm, fun _ _ => rfl⟩

/-- C10 witness: on the concrete candidate gpuSmall (one listed format,
which is the preferred pair) choose_surface_format returns a format. -/
theorem choose_surface_format_spec_witness :
    ∃ f, choose_surface_format gpuSmall = some f :=
  (choose_surface_format_spec gpuSmall (by decide)).1

end Purpl
